import Mathlib

/-
Verification of the p12pass bot (src/app.py): a Telegram dialogue that
re-encrypts an uploaded PKCS#12 bundle under a new passphrase.

The embedding models the four dialogue handlers (handle_p12, ask_old_pass,
ask_new_pass, cancel), the cleanup helper, and the webhook endpoint as pure
state-passing functions over an explicit file-system model.  The external
cryptography library calls (load_key_and_certificates,
serialize_key_and_certificates) are not part of the repository; they are
modelled abstractly from the spec description of a bundle: an opaque
container of key / certificate / CA-chain material protected by one
passphrase.
-/

namespace P12

/-- A certificate, abstracted to the one attribute the program reads from it:
the RFC 4514 string of its subject (cert.subject.rfc4514_string() in app.py
line 149). -/
structure Certificate where
  subject : String
deriving DecidableEq, Repr

/-- The key / certificate / additional-certificate material contained in a
PKCS#12 bundle: the triple (key, cert, addl) returned by
load_key_and_certificates in app.py line 133.  Keys are opaque and modelled
as strings. -/
structure P12Material where
  key  : Option String
  cert : Option Certificate
  cas  : List Certificate
deriving DecidableEq, Repr

/-- Modelled from the spec: a PKCS#12 bundle is an opaque blob that may
contain a private key, a primary certificate and zero or more additional
certificates, all protected by one passphrase-derived encryption key; it
also carries an optional friendly name.  passphrase = none models an
unencrypted bundle (the library is called with password None). -/
structure Bundle where
  material     : P12Material
  passphrase   : Option String
  friendlyName : Option String
deriving DecidableEq, Repr

/-- Raw file bytes: either bytes that parse as a PKCS#12 bundle, or bytes
that do not (none). -/
abbrev FileBytes := Option Bundle

/-- Modelled from the spec: load_key_and_certificates(data, password) from
the external cryptography library.  It raises (here: returns an error) on
bytes that are not a bundle, or when the password does not match the
passphrase the bundle was encrypted under; otherwise it returns the
contained material. -/
def load_key_and_certificates (data : FileBytes) (password : Option String) :
    Except Unit P12Material :=
  match data with
  | none => .error ()
  | some b => if b.passphrase = password then .ok b.material else .error ()

/-- Modelled from the spec: serialize_key_and_certificates(name, key, cert,
cas, BestAvailableEncryption(password)) from the external cryptography
library: it packs the given material into a new bundle encrypted under the
given password, carrying the given friendly name. -/
def serialize_key_and_certificates (name : Option String) (key : Option String)
    (cert : Option Certificate) (cas : List Certificate) (password : String) :
    Bundle :=
  { material := ⟨key, cert, cas⟩, passphrase := some password, friendlyName := name }

/-- The file system: an association list of regular files (path to bytes)
and a list of existing directories. -/
structure FS where
  files : List (String × FileBytes)
  dirs  : List String
deriving DecidableEq, Repr

/-- Reading a regular file: lookup by path. -/
def FS.read (fs : FS) (p : String) : Option FileBytes :=
  fs.files.lookup p

/-- os.path.exists: true when the path is a regular file or a directory. -/
def FS.pathExists (fs : FS) (p : String) : Bool :=
  (fs.read p).isSome || fs.dirs.contains p

/-- Writing (or overwriting) a regular file. -/
def FS.write (fs : FS) (p : String) (b : FileBytes) : FS :=
  { fs with files := (p, b) :: fs.files.filter (fun kv => kv.1 != p) }

/-- os.remove: deletes a regular file; a no-op when the path is not a
regular file (the exception the real call would raise is swallowed by
cleanup). -/
def FS.removeFile (fs : FS) (p : String) : FS :=
  { fs with files := fs.files.filter (fun kv => kv.1 != p) }

/-- Path p lies strictly below directory d. -/
def under (d p : String) : Bool :=
  (d ++ "/").data.isPrefixOf p.data

/-- A directory is empty when no regular file and no other directory lies
below it. -/
def FS.dirEmpty (fs : FS) (d : String) : Bool :=
  fs.files.all (fun kv => !(under d kv.1)) && fs.dirs.all (fun e => !(under d e))

/-- os.rmdir inside cleanup: removes the directory when it exists and is
empty; otherwise the raised exception is swallowed and nothing changes. -/
def FS.removeDirIfEmpty (fs : FS) (d : String) : FS :=
  if fs.dirs.contains d && fs.dirEmpty d then
    { fs with dirs := fs.dirs.filter (fun e => e != d) }
  else fs

/-- One iteration of the first loop of cleanup (app.py lines 53-58):
if p and os.path.exists(p): os.remove(p), all exceptions swallowed.
A Python None or empty-string path is falsy and skipped. -/
def cleanupFile (fs : FS) (po : Option String) : FS :=
  match po with
  | none => fs
  | some p => if p ≠ "" && fs.pathExists p then fs.removeFile p else fs

/-- One iteration of the second loop of cleanup (app.py lines 59-64):
if d and os.path.isdir(d): os.rmdir(d), all exceptions swallowed. -/
def cleanupDir (fs : FS) (od : Option String) : FS :=
  match od with
  | none => fs
  | some d => if d ≠ "" then fs.removeDirIfEmpty d else fs

/-- The cleanup helper (app.py lines 51-64): best-effort removal of the
given file paths, then of the given directories. -/
def cleanup (paths : List (Option String)) (dirs : List (Option String))
    (fs : FS) : FS :=
  (paths.foldl cleanupFile fs) |> dirs.foldl cleanupDir

/-- Python str.strip() on the whitespace the claims exercise: drop leading
and trailing whitespace characters. -/
def pyStrip (s : String) : String :=
  ⟨((s.data.dropWhile Char.isWhitespace).reverse.dropWhile Char.isWhitespace).reverse⟩

/-- Python truthiness of an optional integer: None and 0 are falsy. -/
def truthyNat : Option Nat → Bool
  | none => false
  | some n => n != 0

/-- Lower-casing of a file name, as file_name.lower() in app.py line 87. -/
def lowerStr (s : String) : String :=
  ⟨s.data.map Char.toLower⟩

/-- The attachment filter of handle_p12 (app.py line 87):
doc.file_name.lower().endswith(".p12"). -/
def endsWithP12 (name : String) : Bool :=
  ".p12".data.isSuffixOf (lowerStr name).data

/-- Index of the last occurrence of a character in a list, if any. -/
def lastIndexOfAux (cs : List Char) (c : Char) (i : Nat) (acc : Option Nat) :
    Option Nat :=
  match cs with
  | [] => acc
  | x :: xs => lastIndexOfAux xs c (i + 1) (if x = c then some i else acc)

/-- Index of the last occurrence of a character in a string, if any. -/
def lastIndexOf (s : String) (c : Char) : Option Nat :=
  lastIndexOfAux s.data c 0 none

/-- os.path.splitext(p)[0] (posix): the extension splits at the last dot,
provided that dot comes after the last path separator and some character
strictly between the separator and that dot is not itself a dot; otherwise
the whole name is the root. -/
def splitext_root (name : String) : String :=
  let cs := name.data
  let sepIdx : Option Nat := lastIndexOf name '/'
  let dotIdx : Option Nat := lastIndexOf name '.'
  match dotIdx with
  | none => name
  | some di =>
    let fnStart : Nat := match sepIdx with | none => 0 | some si => si + 1
    if di < fnStart then name
    else if (List.range cs.length).any
        (fun j => decide (fnStart ≤ j) && decide (j < di) && (cs.getD j '.' != '.')) then
      ⟨cs.take di⟩
    else name

/-- The per-chat scratch state context.user_data, a dictionary whose get
returns None for an absent key.  clear() resets every field to none. -/
structure UserData where
  input_path : Option String
  tmp_dir    : Option String
  old_pass   : Option String
  orig_name  : Option String
deriving DecidableEq, Repr

/-- user_data after context.user_data.clear(). -/
def UserData.empty : UserData :=
  ⟨none, none, none, none⟩

/-- Return values of the conversation handlers: ConversationHandler.END or
one of the two waiting states. -/
inductive ConvResult where
  | END
  | ASK_OLD_PASS
  | ASK_NEW_PASS
deriving DecidableEq, Repr

/-- An inbound Telegram document attachment: its file name, its reported
file size (optional in the Bot API) and its content. -/
structure Document where
  file_name : String
  file_size : Option Nat
  bytes     : FileBytes
deriving DecidableEq, Repr

/-- The configured size limit MAX_FILE_SIZE_BYTES = MAX_FILE_SIZE_MB * 1024
* 1024 (app.py line 39). -/
def MAX_FILE_SIZE_BYTES (mb : Nat) : Nat :=
  mb * 1024 * 1024

/-- The message handle_p12 answers with. -/
inductive UploadReply where
  | wrongFileType
  | tooLarge
  | askOldPass
deriving DecidableEq, Repr

/-- Result of one handle_p12 invocation: the conversation return value, the
updated scratch state and file system, the reply sent, and whether the
attachment content was downloaded. -/
structure UploadResult where
  ret        : ConvResult
  ud         : UserData
  fs         : FS
  reply      : UploadReply
  downloaded : Bool
deriving DecidableEq, Repr

/-- handle_p12 (app.py lines 84-109).  tmp_dir is the fresh directory name
tempfile.mkdtemp would return; it is used only on the acceptance path. -/
def handle_p12 (doc : Option Document) (ud : UserData) (fs : FS)
    (max_bytes : Nat) (tmp_dir : String) : UploadResult :=
  match doc with
  | none => ⟨.END, ud, fs, .wrongFileType, false⟩
  | some d =>
    if !(endsWithP12 d.file_name) then
      ⟨.END, ud, fs, .wrongFileType, false⟩
    else if truthyNat d.file_size && decide (d.file_size.getD 0 > max_bytes) then
      ⟨.END, ud, fs, .tooLarge, false⟩
    else
      let input_path := tmp_dir ++ "/" ++ d.file_name
      let fs1 : FS := { fs with dirs := tmp_dir :: fs.dirs }
      let fs2 := fs1.write input_path d.bytes
      ⟨.ASK_OLD_PASS,
       { ud with input_path := some input_path, tmp_dir := some tmp_dir,
                 orig_name := some d.file_name },
       fs2, .askOldPass, true⟩

/-- ask_old_pass (app.py lines 112-115): stores the stripped message text as
the old passphrase and advances the dialogue. -/
def ask_old_pass (text : String) (ud : UserData) : ConvResult × UserData :=
  (.ASK_NEW_PASS, { ud with old_pass := some (pyStrip text) })

/-- The friendly name embedded in the repacked bundle (app.py line 149):
cert.subject.rfc4514_string().encode("utf-8") if cert else None.  The
subject string is used verbatim. -/
def friendly_name (cert : Option Certificate) : Option String :=
  cert.map (fun c => c.subject)

/-- The message (or document) ask_new_pass answers with. -/
inductive AskReply where
  | missingTempFile
  | invalidBundle
  | decryptError
  | successDoc (filename : String) (content : Bundle)
  | repackError
deriving DecidableEq, Repr

/-- Result of one ask_new_pass invocation. -/
structure AskResult where
  ret   : ConvResult
  ud    : UserData
  fs    : FS
  reply : AskReply
deriving DecidableEq, Repr

/-- ask_new_pass (app.py lines 118-178).  ts is the timestamp string
datetime.now().strftime("%Y%m%d_%H%M%S") would produce.  The branches: a
missing or falsy input path returns without any cleanup; a read failure,
an absent old passphrase (None.encode raises inside the try) or a load
failure reach the except branch of lines 141-144; empty extracted material
is the invalid-bundle branch of lines 137-140; an absent orig_name or
tmp_dir raises inside the second try (lines 148-173) before any write;
otherwise the new bundle is written, sent, and the finally branch (lines
174-176) cleans up and clears the scratch state. -/
def ask_new_pass (text : String) (ud : UserData) (fs : FS) (ts : String) :
    AskResult :=
  let new_pass := pyStrip text
  match ud.input_path with
  | none => ⟨.END, ud, fs, .missingTempFile⟩
  | some ip =>
    if ip = "" ∨ ¬ (fs.pathExists ip = true) then
      ⟨.END, ud, fs, .missingTempFile⟩
    else
      match fs.read ip with
      | none =>
        ⟨.END, ud, cleanup [some ip] [ud.tmp_dir] fs, .decryptError⟩
      | some p12_data =>
        match ud.old_pass with
        | none =>
          ⟨.END, ud, cleanup [some ip] [ud.tmp_dir] fs, .decryptError⟩
        | some op =>
          let password : Option String := if op = "" then none else some op
          match load_key_and_certificates p12_data password with
          | .error _ =>
            ⟨.END, ud, cleanup [some ip] [ud.tmp_dir] fs, .decryptError⟩
          | .ok mat =>
            if mat.key = none ∧ mat.cert = none then
              ⟨.END, ud, cleanup [some ip] [ud.tmp_dir] fs, .invalidBundle⟩
            else
              match ud.orig_name, ud.tmp_dir with
              | some onm, some td =>
                let friendly : Option String := friendly_name mat.cert
                let new_p12 := serialize_key_and_certificates friendly mat.key
                  mat.cert mat.cas new_pass
                let output_name := splitext_root onm ++ "_newpass_" ++ ts ++ ".p12"
                let output_path := td ++ "/" ++ output_name
                let fs1 := fs.write output_path (some new_p12)
                let fs2 := cleanup [some ip, some output_path] [some td] fs1
                ⟨.END, UserData.empty, fs2, .successDoc output_name new_p12⟩
              | _, _ =>
                ⟨.END, UserData.empty, cleanup [some ip] [ud.tmp_dir] fs,
                 .repackError⟩

/-- Result of one cancel invocation. -/
structure CancelResult where
  ret : ConvResult
  ud  : UserData
  fs  : FS
deriving DecidableEq, Repr

/-- cancel (app.py lines 181-188): best-effort cleanup of the stored input
path and temporary directory, then clears the scratch state. -/
def cancel (ud : UserData) (fs : FS) : CancelResult :=
  ⟨.END, UserData.empty, cleanup [ud.input_path] [ud.tmp_dir] fs⟩

/-- Outcome of the webhook endpoint (app.py lines 245-256): either an HTTP
401 raised before the update is processed, or the fixed acknowledgement
body after processing.  processed records that application.process_update
ran; okBody records the literal body returned. -/
inductive WebhookOutcome where
  | unauthorized
  | acknowledged (processed : Bool) (okBody : Bool)
deriving DecidableEq, Repr

/-- webhook (app.py lines 245-256): when a secret token is configured
(non-empty) and the X-Telegram-Bot-Api-Secret-Token header differs from it
(an absent header differs from any configured secret), raise 401; otherwise
process the update and return the body with ok = true. -/
def webhook (secret : String) (header : Option String) : WebhookOutcome :=
  if secret ≠ "" then
    if header ≠ some secret then .unauthorized
    else .acknowledged true true
  else .acknowledged true true

/-- Nothing was added to the file system: every file of the second state
already held the same bytes in the first. -/
def noNewFiles (fs fs2 : FS) : Prop :=
  ∀ q x, fs2.read q = some x → fs.read q = some x

/-- A bundle holding a key, a certificate and one CA certificate, encrypted
under old123: the concrete scenario bundle of the spec. -/
def bundleA : Bundle :=
  ⟨⟨some "KEY", some ⟨"CN=Alice"⟩, [⟨"CN=CA"⟩]⟩, some "old123", none⟩

/-- File system of a session that downloaded secret.p12 into directory t. -/
def sessFS : FS :=
  ⟨[("/t/secret.p12", some bundleA)], ["/t"]⟩

/-- Scratch state of that session after the old passphrase was stored. -/
def sessUD : UserData :=
  ⟨some "/t/secret.p12", some "/t", some "old123", some "secret.p12"⟩

/-- The same session after the input file disappeared from disk. -/
def missFS : FS :=
  ⟨[], ["/t"]⟩

/-- A parseable but empty bundle: no key and no certificate. -/
def emptyBundle : Bundle :=
  ⟨⟨none, none, []⟩, none, none⟩

/-- Session file system holding the empty bundle, uploaded unencrypted. -/
def emptyFS : FS :=
  ⟨[("/t/secret.p12", some emptyBundle)], ["/t"]⟩

/-- Matching scratch state with an empty old passphrase. -/
def emptyUD : UserData :=
  ⟨some "/t/secret.p12", some "/t", some "", some "secret.p12"⟩

/-- A bundle with a key and no certificate, encrypted under old123. -/
def keyOnlyBundle : Bundle :=
  ⟨⟨some "KEY", none, []⟩, some "old123", none⟩

/-- Session file system holding the key-only bundle. -/
def keyOnlyFS : FS :=
  ⟨[("/t/secret.p12", some keyOnlyBundle)], ["/t"]⟩

theorem lookup_filterKey_ne (l : List (String × FileBytes)) (p q : String)
    (h : q ≠ p) :
    (l.filter (fun kv => kv.1 != p)).lookup q = l.lookup q := by
  induction l with
  | nil => rfl
  | cons kv tl ih =>
    obtain ⟨a, b⟩ := kv
    by_cases hk : a = p
    · subst hk
      have h2 : (q == a) = false := by simp [h]
      simp [List.filter_cons, List.lookup, h2, ih]
    · by_cases hq : q = a
      · simp [List.filter_cons, hk, List.lookup, hq]
      · have h2 : (q == a) = false := by simp [hq]
        simp [List.filter_cons, hk, List.lookup, h2, ih]

theorem lookup_filterKey_self (l : List (String × FileBytes)) (p : String) :
    (l.filter (fun kv => kv.1 != p)).lookup p = none := by
  induction l with
  | nil => rfl
  | cons kv tl ih =>
    obtain ⟨a, b⟩ := kv
    by_cases hk : a = p
    · simp [List.filter_cons, hk, ih]
    · have h2 : (p == a) = false := by
        rw [beq_eq_false_iff_ne]
        exact fun hx => hk hx.symm
      simp [List.filter_cons, hk, List.lookup, h2, ih]

theorem FS.read_write (fs : FS) (p q : String) (b : FileBytes) :
    (fs.write p b).read q = if q = p then some b else fs.read q := by
  by_cases h : q = p
  · subst h
    simp [FS.write, FS.read, List.lookup]
  · have h2 : (q == p) = false := by simp [h]
    simp [FS.write, FS.read, List.lookup, h2, lookup_filterKey_ne _ _ _ h, h]

theorem FS.read_removeFile (fs : FS) (p q : String) :
    (fs.removeFile p).read q = if q = p then none else fs.read q := by
  by_cases h : q = p
  · subst h
    simp [FS.removeFile, FS.read, lookup_filterKey_self]
  · simp [FS.removeFile, FS.read, lookup_filterKey_ne _ _ _ h, h]

theorem lookup_isSome_of_mem {l : List (String × FileBytes)}
    {kv : String × FileBytes} (h : kv ∈ l) :
    (l.lookup kv.1).isSome = true := by
  induction l with
  | nil => cases h
  | cons hd tl ih =>
    obtain ⟨a, b⟩ := hd
    rcases List.mem_cons.mp h with h | h
    · subst h
      simp [List.lookup]
    · by_cases hq : kv.1 = a
      · simp [List.lookup, hq]
      · have h2 : (kv.1 == a) = false := by simp [hq]
        simp [List.lookup, h2, ih h]

theorem pathExists_of_read {fs : FS} {p : String} {x : FileBytes}
    (h : fs.read p = some x) : fs.pathExists p = true := by
  simp [FS.pathExists, h]

theorem pathExists_of_mem {fs : FS} {kv : String × FileBytes}
    (h : kv ∈ fs.files) : fs.pathExists kv.1 = true := by
  simp [FS.pathExists, FS.read, lookup_isSome_of_mem h]

theorem dirs_cleanupFile (fs : FS) (po : Option String) :
    (cleanupFile fs po).dirs = fs.dirs := by
  cases po with
  | none => rfl
  | some p =>
    simp only [cleanupFile]
    split <;> rfl

theorem dirs_foldl_cleanupFile (ps : List (Option String)) (fs : FS) :
    (ps.foldl cleanupFile fs).dirs = fs.dirs := by
  induction ps generalizing fs with
  | nil => rfl
  | cons p ps ih =>
    simp [List.foldl_cons, ih, dirs_cleanupFile]

theorem mem_files_cleanupFile {fs : FS} {po : Option String}
    {kv : String × FileBytes} (h : kv ∈ (cleanupFile fs po).files) :
    kv ∈ fs.files := by
  cases po with
  | none => exact h
  | some p =>
    simp only [cleanupFile, FS.removeFile] at h
    split at h
    · exact List.mem_of_mem_filter h
    · exact h

theorem mem_files_foldl_cleanupFile {ps : List (Option String)} {fs : FS}
    {kv : String × FileBytes} (h : kv ∈ (ps.foldl cleanupFile fs).files) :
    kv ∈ fs.files := by
  induction ps generalizing fs with
  | nil => exact h
  | cons p ps ih =>
    exact mem_files_cleanupFile (ih h)

theorem not_mem_files_cleanupFile_self {fs : FS} {kv : String × FileBytes}
    (hne : kv.1 ≠ "") : kv ∉ (cleanupFile fs (some kv.1)).files := by
  intro hmem
  simp only [cleanupFile, FS.removeFile] at hmem
  split at hmem
  case isTrue h =>
    have := List.of_mem_filter hmem
    simp at this
  case isFalse h =>
    have hs := lookup_isSome_of_mem hmem
    have hpe : fs.pathExists kv.1 = true := by
      simp [FS.pathExists, FS.read, hs]
    exact h (by simp [hne, hpe])

theorem not_mem_files_foldl_cleanupFile {ps : List (Option String)} {fs : FS}
    {kv : String × FileBytes} (hne : kv.1 ≠ "") (hin : some kv.1 ∈ ps) :
    kv ∉ (ps.foldl cleanupFile fs).files := by
  induction ps generalizing fs with
  | nil => cases hin
  | cons po ps ih =>
    intro hmem
    rw [List.foldl_cons] at hmem
    rcases List.mem_cons.mp hin with h | h
    · rw [← h] at hmem
      exact not_mem_files_cleanupFile_self hne (mem_files_foldl_cleanupFile hmem)
    · exact ih h hmem

theorem files_cleanupDir (fs : FS) (od : Option String) :
    (cleanupDir fs od).files = fs.files := by
  cases od with
  | none => rfl
  | some d =>
    simp only [cleanupDir, FS.removeDirIfEmpty]
    split
    · split <;> rfl
    · rfl

theorem files_foldl_cleanupDir (ds : List (Option String)) (fs : FS) :
    (ds.foldl cleanupDir fs).files = fs.files := by
  induction ds generalizing fs with
  | nil => rfl
  | cons d ds ih =>
    simp [List.foldl_cons, ih, files_cleanupDir]

theorem read_cleanupFile_cases (fs : FS) (po : Option String) (q : String) :
    (cleanupFile fs po).read q = fs.read q ∨ (cleanupFile fs po).read q = none := by
  cases po with
  | none => exact Or.inl rfl
  | some p =>
    simp only [cleanupFile]
    split
    · rw [FS.read_removeFile]
      by_cases h : q = p
      · simp [h]
      · simp [h]
    · exact Or.inl rfl

theorem read_foldl_cleanupFile_cases (ps : List (Option String)) (fs : FS)
    (q : String) :
    (ps.foldl cleanupFile fs).read q = fs.read q ∨
      (ps.foldl cleanupFile fs).read q = none := by
  induction ps generalizing fs with
  | nil => exact Or.inl rfl
  | cons p ps ih =>
    rcases ih (cleanupFile fs p) with h | h
    · rcases read_cleanupFile_cases fs p q with h2 | h2
      · exact Or.inl (by rw [List.foldl_cons, h, h2])
      · exact Or.inr (by rw [List.foldl_cons, h, h2])
    · exact Or.inr (by rw [List.foldl_cons, h])

theorem read_foldl_cleanupDir (ds : List (Option String)) (fs : FS)
    (q : String) : (ds.foldl cleanupDir fs).read q = fs.read q := by
  simp [FS.read, files_foldl_cleanupDir]

theorem noNewFiles_cleanup (ps ds : List (Option String)) (fs : FS) :
    noNewFiles fs (cleanup ps ds fs) := by
  intro q x h
  simp only [cleanup] at h
  rw [read_foldl_cleanupDir] at h
  rcases read_foldl_cleanupFile_cases ps fs q with h2 | h2
  · rw [h2] at h
    exact h
  · rw [h2] at h
    cases h

theorem dir_removed_by_cleanup (fs : FS) (td : String)
    (ps : List (Option String))
    (hfiles : ∀ kv ∈ fs.files, under td kv.1 = true → kv.1 ≠ "" ∧ some kv.1 ∈ ps)
    (hdirs : ∀ e ∈ fs.dirs, under td e = false)
    (htd : td ≠ "") :
    td ∉ (cleanup ps [some td] fs).dirs := by
  have hfe : (ps.foldl cleanupFile fs).dirEmpty td = true := by
    simp only [FS.dirEmpty, Bool.and_eq_true, List.all_eq_true]
    constructor
    · intro kv hkv
      by_contra hc
      have hu : under td kv.1 = true := by
        simpa using hc
      have hkv0 : kv ∈ fs.files := mem_files_foldl_cleanupFile hkv
      obtain ⟨hne, hin⟩ := hfiles kv hkv0 hu
      exact not_mem_files_foldl_cleanupFile hne hin hkv
    · intro e he
      rw [dirs_foldl_cleanupFile] at he
      simp [hdirs e he]
  show td ∉ (cleanupDir (ps.foldl cleanupFile fs) (some td)).dirs
  simp only [cleanupDir]
  rw [if_pos htd]
  simp only [FS.removeDirIfEmpty]
  by_cases hc : td ∈ (ps.foldl cleanupFile fs).dirs
  · have hct : (ps.foldl cleanupFile fs).dirs.contains td = true :=
      List.elem_eq_true_of_mem hc
    rw [if_pos (by simp [hct, hfe, hc])]
    intro hmem
    have := List.of_mem_filter hmem
    simp at this
  · split
    · intro hmem
      have := List.of_mem_filter hmem
      simp at this
    · exact hc

theorem ask_new_pass_missing (text ts ip : String) (ud : UserData) (fs : FS)
    (h_ip : ud.input_path = some ip)
    (h : ip = "" ∨ fs.pathExists ip = false) :
    ask_new_pass text ud fs ts = ⟨.END, ud, fs, .missingTempFile⟩ := by
  simp only [ask_new_pass, h_ip]
  rw [if_pos]
  rcases h with h | h
  · exact Or.inl h
  · exact Or.inr (by simp [h])

theorem ask_new_pass_loadFail (text ts ip op : String) (ud : UserData)
    (fs : FS) (data : FileBytes)
    (h_ip : ud.input_path = some ip) (h_ipne : ip ≠ "")
    (h_read : fs.read ip = some data)
    (h_op : ud.old_pass = some op)
    (h_load : load_key_and_certificates data
      (if op = "" then none else some op) = .error ()) :
    ask_new_pass text ud fs ts =
      ⟨.END, ud, cleanup [some ip] [ud.tmp_dir] fs, .decryptError⟩ := by
  have hex : fs.pathExists ip = true := pathExists_of_read h_read
  simp only [ask_new_pass, h_ip, h_read, h_op]
  rw [if_neg (by simp [h_ipne, hex])]
  simp [h_load]

theorem ask_new_pass_invalid (text ts ip op : String) (ud : UserData)
    (fs : FS) (data : FileBytes) (mat : P12Material)
    (h_ip : ud.input_path = some ip) (h_ipne : ip ≠ "")
    (h_read : fs.read ip = some data)
    (h_op : ud.old_pass = some op)
    (h_load : load_key_and_certificates data
      (if op = "" then none else some op) = .ok mat)
    (hk : mat.key = none) (hc : mat.cert = none) :
    ask_new_pass text ud fs ts =
      ⟨.END, ud, cleanup [some ip] [ud.tmp_dir] fs, .invalidBundle⟩ := by
  have hex : fs.pathExists ip = true := pathExists_of_read h_read
  simp only [ask_new_pass, h_ip, h_read, h_op]
  rw [if_neg (by simp [h_ipne, hex])]
  simp [h_load, hk, hc]

theorem ask_new_pass_success (text ts ip op onm td : String) (ud : UserData)
    (fs : FS) (b : Bundle)
    (h_ip : ud.input_path = some ip) (h_ipne : ip ≠ "")
    (h_read : fs.read ip = some (some b))
    (h_op : ud.old_pass = some op)
    (h_pw : b.passphrase = if op = "" then none else some op)
    (h_mat : ¬(b.material.key = none ∧ b.material.cert = none))
    (h_onm : ud.orig_name = some onm) (h_td : ud.tmp_dir = some td) :
    ask_new_pass text ud fs ts =
      ⟨.END, UserData.empty,
       cleanup
         [some ip, some (td ++ "/" ++ (splitext_root onm ++ "_newpass_" ++ ts ++ ".p12"))]
         [some td]
         (fs.write (td ++ "/" ++ (splitext_root onm ++ "_newpass_" ++ ts ++ ".p12"))
            (some ⟨b.material, some (pyStrip text), friendly_name b.material.cert⟩)),
       .successDoc (splitext_root onm ++ "_newpass_" ++ ts ++ ".p12")
         ⟨b.material, some (pyStrip text), friendly_name b.material.cert⟩⟩ := by
  have hex : fs.pathExists ip = true := pathExists_of_read h_read
  simp only [ask_new_pass, h_ip, h_read, h_op, h_onm, h_td]
  rw [if_neg (by simp [h_ipne, hex])]
  have hload : load_key_and_certificates (some b)
      (if op = "" then none else some op) = .ok b.material := by
    simp [load_key_and_certificates, h_pw]
  simp only [hload]
  rw [if_neg h_mat]
  rfl

theorem append_slash_ne_empty (td n : String) : td ++ "/" ++ n ≠ "" := by
  intro h
  have h2 := congrArg String.length h
  rw [String.length_append, String.length_append, String.length_empty] at h2
  have h3 : ("/").length = 1 := rfl
  omega

/-- Session scratch state holding a wrong old passphrase. -/
def wrongUD : UserData :=
  ⟨some "/t/secret.p12", some "/t", some "WRONG", some "secret.p12"⟩

/-- Claim C1: for every valid bundle encrypted with passphrase P, repacking
it via ask_new_pass with old passphrase P and new passphrase Q (decrypt
with load_key_and_certificates, re-encrypt with
serialize_key_and_certificates), then decrypting the result with Q, yields
the same private key, primary certificate and additional-certificate
material as decrypting the original bundle with P. -/
theorem c1_repack_round_trip (q ts ip op onm td : String) (ud : UserData)
    (fs : FS) (b : Bundle)
    (h_ip : ud.input_path = some ip) (h_ipne : ip ≠ "")
    (h_read : fs.read ip = some (some b))
    (h_op : ud.old_pass = some op) (h_opne : op ≠ "")
    (h_pw : b.passphrase = some op)
    (h_mat : ¬(b.material.key = none ∧ b.material.cert = none))
    (h_onm : ud.orig_name = some onm) (h_td : ud.tmp_dir = some td)
    (h_q : pyStrip q = q) :
    load_key_and_certificates (some b) (some op) = .ok b.material ∧
    ∃ out : Bundle,
      (ask_new_pass q ud fs ts).reply =
        .successDoc (splitext_root onm ++ "_newpass_" ++ ts ++ ".p12") out ∧
      load_key_and_certificates (some out) (some q) = .ok b.material := by
  have h_pw2 : b.passphrase = if op = "" then none else some op := by
    rw [if_neg h_opne]
    exact h_pw
  have hs := ask_new_pass_success q ts ip op onm td ud fs b h_ip h_ipne h_read
    h_op h_pw2 h_mat h_onm h_td
  refine ⟨by simp [load_key_and_certificates, h_pw],
    ⟨b.material, some (pyStrip q), friendly_name b.material.cert⟩, by rw [hs], ?_⟩
  simp [load_key_and_certificates, h_q]

/-- Witness for C1: the concrete scenario session satisfies every
hypothesis and the round trip preserves the material. -/
theorem c1_witness :
    sessUD.input_path = some "/t/secret.p12" ∧
    sessFS.read "/t/secret.p12" = some (some bundleA) ∧
    sessUD.old_pass = some "old123" ∧
    bundleA.passphrase = some "old123" ∧
    ¬(bundleA.material.key = none ∧ bundleA.material.cert = none) ∧
    pyStrip "newpass" = "newpass" ∧
    (load_key_and_certificates (some bundleA) (some "old123") = .ok bundleA.material ∧
     ∃ out : Bundle,
       (ask_new_pass "newpass" sessUD sessFS "20250101_120000").reply =
         .successDoc (splitext_root "secret.p12" ++ "_newpass_" ++ "20250101_120000" ++ ".p12") out ∧
       load_key_and_certificates (some out) (some "newpass") = .ok bundleA.material) :=
  ⟨by decide, by decide, by decide, by decide, by decide, by decide,
   c1_repack_round_trip "newpass" "20250101_120000" "/t/secret.p12" "old123"
     "secret.p12" "/t" sessUD sessFS bundleA (by decide) (by decide) (by decide)
     (by decide) (by decide) (by decide) (by decide) (by decide) (by decide)
     (by decide)⟩

/-- Claim C2 counterexample: in the concrete scenario of the spec (upload
named secret.p12, old passphrase old123, new passphrase newpass), the file
returned on success is named with the newpass suffix, which differs from
the claimed name secret_repass_(timestamp).p12. -/
theorem c2_counterexample :
    (ask_new_pass "newpass" sessUD sessFS "20250101_120000").reply =
      .successDoc "secret_newpass_20250101_120000.p12"
        ⟨bundleA.material, some "newpass", some "CN=Alice"⟩ ∧
    "secret_newpass_20250101_120000.p12" ≠ "secret_repass_20250101_120000.p12" := by
  decide

/-- Claim C2 (amended): on a successful repack the returned file is named
(original name without extension)_newpass_(timestamp).p12; in particular an
upload named secret.p12 yields secret_newpass_(timestamp).p12. -/
theorem c2_output_name (q ts ip op onm td : String) (ud : UserData)
    (fs : FS) (b : Bundle)
    (h_ip : ud.input_path = some ip) (h_ipne : ip ≠ "")
    (h_read : fs.read ip = some (some b))
    (h_op : ud.old_pass = some op)
    (h_pw : b.passphrase = if op = "" then none else some op)
    (h_mat : ¬(b.material.key = none ∧ b.material.cert = none))
    (h_onm : ud.orig_name = some onm) (h_td : ud.tmp_dir = some td) :
    ∃ out : Bundle,
      (ask_new_pass q ud fs ts).reply =
        .successDoc (splitext_root onm ++ "_newpass_" ++ ts ++ ".p12") out ∧
      (onm = "secret.p12" →
        splitext_root onm ++ "_newpass_" ++ ts ++ ".p12" =
          "secret" ++ "_newpass_" ++ ts ++ ".p12") := by
  have hs := ask_new_pass_success q ts ip op onm td ud fs b h_ip h_ipne h_read
    h_op h_pw h_mat h_onm h_td
  refine ⟨_, by rw [hs], ?_⟩
  intro h
  subst h
  rw [show splitext_root "secret.p12" = "secret" from by decide]

/-- Witness for C2: the concrete scenario instantiates the amended naming
statement. -/
theorem c2_witness :
    sessUD.orig_name = some "secret.p12" ∧
    ∃ out : Bundle,
      (ask_new_pass "newpass" sessUD sessFS "20250101_120000").reply =
        .successDoc (splitext_root "secret.p12" ++ "_newpass_" ++ "20250101_120000" ++ ".p12") out ∧
      ("secret.p12" = "secret.p12" →
        splitext_root "secret.p12" ++ "_newpass_" ++ "20250101_120000" ++ ".p12" =
          "secret" ++ "_newpass_" ++ "20250101_120000" ++ ".p12") :=
  ⟨by decide,
   c2_output_name "newpass" "20250101_120000" "/t/secret.p12" "old123"
     "secret.p12" "/t" sessUD sessFS bundleA (by decide) (by decide) (by decide)
     (by decide) (by decide) (by decide) (by decide) (by decide)⟩

/-- Claim C5 counterexample: the friendly name embedded on success is the
certificate subject string taken verbatim, so its length is not bounded by
any constant, contradicting the claimed truncation to a bounded length. -/
theorem c5_counterexample :
    ¬ ∃ B : Nat, ∀ c : Certificate,
      ((friendly_name (some c)).getD "").length ≤ B := by
  rintro ⟨B, hB⟩
  have h := hB ⟨⟨List.replicate (B + 1) 'a'⟩⟩
  simp [friendly_name, String.length] at h

/-- Claim C5 (amended): on a successful repack the new bundle friendly name
is the certificate subject RFC 4514 string taken verbatim (no truncation)
when a certificate is present, and absent (None) when the decrypted bundle
carries no certificate. -/
theorem c5_friendly_name (q ts ip op onm td : String) (ud : UserData)
    (fs : FS) (b : Bundle)
    (h_ip : ud.input_path = some ip) (h_ipne : ip ≠ "")
    (h_read : fs.read ip = some (some b))
    (h_op : ud.old_pass = some op)
    (h_pw : b.passphrase = if op = "" then none else some op)
    (h_mat : ¬(b.material.key = none ∧ b.material.cert = none))
    (h_onm : ud.orig_name = some onm) (h_td : ud.tmp_dir = some td) :
    ∃ fn : String, ∃ out : Bundle,
      (ask_new_pass q ud fs ts).reply = .successDoc fn out ∧
      out.friendlyName = friendly_name b.material.cert ∧
      (∀ c, b.material.cert = some c → out.friendlyName = some c.subject) ∧
      (b.material.cert = none → out.friendlyName = none) := by
  have hs := ask_new_pass_success q ts ip op onm td ud fs b h_ip h_ipne h_read
    h_op h_pw h_mat h_onm h_td
  refine ⟨_, _, by rw [hs], rfl, ?_, ?_⟩
  · intro c hc
    simp [friendly_name, hc]
  · intro hc
    simp [friendly_name, hc]

/-- Witness for C5: with a certificate present the friendly name is its
subject; with the key-only bundle it is absent. -/
theorem c5_witness :
    (∃ fn : String, ∃ out : Bundle,
      (ask_new_pass "newpass" sessUD sessFS "20250101_120000").reply = .successDoc fn out ∧
      out.friendlyName = friendly_name bundleA.material.cert ∧
      (∀ c, bundleA.material.cert = some c → out.friendlyName = some c.subject) ∧
      (bundleA.material.cert = none → out.friendlyName = none)) ∧
    (∃ fn : String, ∃ out : Bundle,
      (ask_new_pass "newpass" sessUD keyOnlyFS "20250101_120000").reply = .successDoc fn out ∧
      out.friendlyName = friendly_name keyOnlyBundle.material.cert ∧
      (∀ c, keyOnlyBundle.material.cert = some c → out.friendlyName = some c.subject) ∧
      (keyOnlyBundle.material.cert = none → out.friendlyName = none)) :=
  ⟨c5_friendly_name "newpass" "20250101_120000" "/t/secret.p12" "old123"
     "secret.p12" "/t" sessUD sessFS bundleA (by decide) (by decide) (by decide)
     (by decide) (by decide) (by decide) (by decide) (by decide),
   c5_friendly_name "newpass" "20250101_120000" "/t/secret.p12" "old123"
     "secret.p12" "/t" sessUD keyOnlyFS keyOnlyBundle (by decide) (by decide)
     (by decide) (by decide) (by decide) (by decide) (by decide) (by decide)⟩

/-- Claim C6: the repack step has exactly the two failure kinds of the
spec, and neither writes an output file: a decryption failure of any kind
(wrong passphrase or unparseable bytes) yields the decryption error, and
successfully decrypted material with neither key nor certificate yields the
invalid-bundle error; both terminate the dialogue. -/
theorem c6_failure_kinds (text ts ip op : String) (ud : UserData) (fs : FS)
    (data : FileBytes)
    (h_ip : ud.input_path = some ip) (h_ipne : ip ≠ "")
    (h_read : fs.read ip = some data)
    (h_op : ud.old_pass = some op) :
    (load_key_and_certificates data (if op = "" then none else some op) = .error () →
      (ask_new_pass text ud fs ts).reply = .decryptError ∧
      (ask_new_pass text ud fs ts).ret = .END ∧
      noNewFiles fs (ask_new_pass text ud fs ts).fs) ∧
    (∀ mat, load_key_and_certificates data (if op = "" then none else some op) = .ok mat →
      mat.key = none → mat.cert = none →
      (ask_new_pass text ud fs ts).reply = .invalidBundle ∧
      (ask_new_pass text ud fs ts).ret = .END ∧
      noNewFiles fs (ask_new_pass text ud fs ts).fs) := by
  constructor
  · intro hl
    rw [ask_new_pass_loadFail text ts ip op ud fs data h_ip h_ipne h_read h_op hl]
    exact ⟨rfl, rfl, noNewFiles_cleanup _ _ _⟩
  · intro mat hl hk hc
    rw [ask_new_pass_invalid text ts ip op ud fs data mat h_ip h_ipne h_read
      h_op hl hk hc]
    exact ⟨rfl, rfl, noNewFiles_cleanup _ _ _⟩

/-- Witness for C6: a wrong old passphrase takes the decryption-error
branch and adds no file. -/
theorem c6_witness :
    load_key_and_certificates (some bundleA)
      (if "WRONG" = "" then none else some "WRONG") = .error () ∧
    ((ask_new_pass "newpass" wrongUD sessFS "20250101_120000").reply = .decryptError ∧
     (ask_new_pass "newpass" wrongUD sessFS "20250101_120000").ret = .END ∧
     noNewFiles sessFS (ask_new_pass "newpass" wrongUD sessFS "20250101_120000").fs) :=
  ⟨by rfl,
   (c6_failure_kinds "newpass" "20250101_120000" "/t/secret.p12" "WRONG"
     wrongUD sessFS (some bundleA) (by decide) (by decide) (by decide)
     (by decide)).1 (by rfl)⟩

/-- Claim C7: an inbound attachment whose name does not end in the p12
extension (case-insensitively, as the handler checks), or whose reported
size exceeds the configured maximum, makes handle_p12 terminate the
dialogue with an error reply, leave the file system untouched (no temporary
directory created) and download nothing. -/
theorem c7_reject_paths (doc : Document) (ud : UserData) (fs : FS)
    (max_bytes : Nat) (td : String) :
    (endsWithP12 doc.file_name = false →
      handle_p12 (some doc) ud fs max_bytes td =
        ⟨.END, ud, fs, .wrongFileType, false⟩) ∧
    (∀ n, doc.file_size = some n → n > max_bytes →
      (handle_p12 (some doc) ud fs max_bytes td).ret = .END ∧
      (handle_p12 (some doc) ud fs max_bytes td).fs = fs ∧
      (handle_p12 (some doc) ud fs max_bytes td).downloaded = false ∧
      ((handle_p12 (some doc) ud fs max_bytes td).reply = .tooLarge ∨
       (handle_p12 (some doc) ud fs max_bytes td).reply = .wrongFileType)) := by
  constructor
  · intro h
    simp [handle_p12, h]
  · intro n hn hgt
    by_cases he : endsWithP12 doc.file_name
    · have ht : truthyNat (some n) = true := by
        simp only [truthyNat, bne_iff_ne, ne_eq]
        omega
      simp [handle_p12, he, ht, hn, hgt]
    · simp [handle_p12, he]

/-- Witness for C7: a pem attachment is rejected untouched, and an
attachment one byte over the 16 MiB default limit is rejected without
download. -/
theorem c7_witness :
    (endsWithP12 "cert.pem" = false ∧
     handle_p12 (some ⟨"cert.pem", some 5, none⟩) UserData.empty ⟨[], []⟩
       (MAX_FILE_SIZE_BYTES 16) "/t" =
       ⟨.END, UserData.empty, ⟨[], []⟩, .wrongFileType, false⟩) ∧
    ((16777217 : Nat) > MAX_FILE_SIZE_BYTES 16 ∧
     (handle_p12 (some ⟨"big.p12", some 16777217, none⟩) UserData.empty ⟨[], []⟩
       (MAX_FILE_SIZE_BYTES 16) "/t").ret = .END ∧
     (handle_p12 (some ⟨"big.p12", some 16777217, none⟩) UserData.empty ⟨[], []⟩
       (MAX_FILE_SIZE_BYTES 16) "/t").fs = ⟨[], []⟩ ∧
     (handle_p12 (some ⟨"big.p12", some 16777217, none⟩) UserData.empty ⟨[], []⟩
       (MAX_FILE_SIZE_BYTES 16) "/t").downloaded = false) := by
  constructor
  · exact ⟨by decide,
      (c7_reject_paths ⟨"cert.pem", some 5, none⟩ UserData.empty ⟨[], []⟩
        (MAX_FILE_SIZE_BYTES 16) "/t").1 (by decide)⟩
  · have h := (c7_reject_paths ⟨"big.p12", some 16777217, none⟩ UserData.empty
      ⟨[], []⟩ (MAX_FILE_SIZE_BYTES 16) "/t").2 16777217 rfl (by decide)
    exact ⟨by decide, h.1, h.2.1, h.2.2.1⟩

/-- Claim C8: when a shared secret is configured and the
X-Telegram-Bot-Api-Secret-Token header differs from it, the webhook rejects
the request with 401 before processing; otherwise it processes the update
and returns the fixed acknowledgement body with ok set to true. -/
theorem c8_webhook_secret (secret : String) (header : Option String) :
    (secret ≠ "" → header ≠ some secret → webhook secret header = .unauthorized) ∧
    (secret = "" ∨ header = some secret →
      webhook secret header = .acknowledged true true) := by
  constructor
  · intro h1 h2
    simp [webhook, h1, h2]
  · intro h
    rcases h with h | h
    · simp [webhook, h]
    · by_cases hs : secret = ""
      · simp [webhook, hs]
      · simp [webhook, hs, h]

/-- Witness for C8: a configured secret with a wrong header is rejected,
and a matching header is acknowledged. -/
theorem c8_witness :
    (("s3cr3t" : String) ≠ "" ∧ (some "wrong" : Option String) ≠ some "s3cr3t" ∧
      webhook "s3cr3t" (some "wrong") = .unauthorized) ∧
    webhook "s3cr3t" (some "s3cr3t") = .acknowledged true true :=
  ⟨⟨by decide, by decide,
    (c8_webhook_secret "s3cr3t" (some "wrong")).1 (by decide) (by decide)⟩,
   (c8_webhook_secret "s3cr3t" (some "s3cr3t")).2 (Or.inr rfl)⟩

/-- Claim C9: the size limit is checked only for a truthy reported
file_size; when file_size is None or 0, handle_p12 skips the check and
proceeds to download whatever the configured maximum is. -/
theorem c9_size_check_truthy (name : String) (bytes : FileBytes)
    (ud : UserData) (fs : FS) (max_bytes : Nat) (td : String)
    (hext : endsWithP12 name = true) :
    (handle_p12 (some ⟨name, none, bytes⟩) ud fs max_bytes td).downloaded = true ∧
    (handle_p12 (some ⟨name, none, bytes⟩) ud fs max_bytes td).ret = .ASK_OLD_PASS ∧
    (handle_p12 (some ⟨name, some 0, bytes⟩) ud fs max_bytes td).downloaded = true ∧
    (handle_p12 (some ⟨name, some 0, bytes⟩) ud fs max_bytes td).ret = .ASK_OLD_PASS := by
  simp [handle_p12, hext, truthyNat]

/-- Witness for C9: even with a configured maximum of zero bytes, an
attachment with no reported size (and one reporting 0) is downloaded. -/
theorem c9_witness :
    endsWithP12 "secret.p12" = true ∧
    ((handle_p12 (some ⟨"secret.p12", none, none⟩) UserData.empty ⟨[], []⟩ 0 "/t").downloaded = true ∧
     (handle_p12 (some ⟨"secret.p12", none, none⟩) UserData.empty ⟨[], []⟩ 0 "/t").ret = .ASK_OLD_PASS ∧
     (handle_p12 (some ⟨"secret.p12", some 0, none⟩) UserData.empty ⟨[], []⟩ 0 "/t").downloaded = true ∧
     (handle_p12 (some ⟨"secret.p12", some 0, none⟩) UserData.empty ⟨[], []⟩ 0 "/t").ret = .ASK_OLD_PASS) :=
  ⟨by decide,
   c9_size_check_truthy "secret.p12" none UserData.empty ⟨[], []⟩ 0 "/t" (by decide)⟩

/-- Claim C10: the passphrase the output bundle is encrypted under is the
new-passphrase message text stripped of surrounding whitespace, not the
text as sent. -/
theorem c10_new_pass_trimmed (text ts ip op onm td : String) (ud : UserData)
    (fs : FS) (b : Bundle)
    (h_ip : ud.input_path = some ip) (h_ipne : ip ≠ "")
    (h_read : fs.read ip = some (some b))
    (h_op : ud.old_pass = some op)
    (h_pw : b.passphrase = if op = "" then none else some op)
    (h_mat : ¬(b.material.key = none ∧ b.material.cert = none))
    (h_onm : ud.orig_name = some onm) (h_td : ud.tmp_dir = some td) :
    ∃ fn : String, ∃ out : Bundle,
      (ask_new_pass text ud fs ts).reply = .successDoc fn out ∧
      out.passphrase = some (pyStrip text) ∧
      (pyStrip text ≠ text → out.passphrase ≠ some text) := by
  have hs := ask_new_pass_success text ts ip op onm td ud fs b h_ip h_ipne
    h_read h_op h_pw h_mat h_onm h_td
  refine ⟨_, _, by rw [hs], rfl, ?_⟩
  intro hne heq
  simp only [Option.some.injEq] at heq
  exact hne heq

/-- Witness for C10: a new passphrase sent with surrounding whitespace
encrypts under the trimmed string. -/
theorem c10_witness :
    pyStrip " newpass " = "newpass" ∧
    ∃ fn : String, ∃ out : Bundle,
      (ask_new_pass " newpass " sessUD sessFS "20250101_120000").reply = .successDoc fn out ∧
      out.passphrase = some (pyStrip " newpass ") ∧
      (pyStrip " newpass " ≠ " newpass " → out.passphrase ≠ some " newpass ") :=
  ⟨by decide,
   c10_new_pass_trimmed " newpass " "20250101_120000" "/t/secret.p12" "old123"
     "secret.p12" "/t" sessUD sessFS bundleA (by decide) (by decide) (by decide)
     (by decide) (by decide) (by decide) (by decide) (by decide)⟩

theorem load_ok_inv {data : FileBytes} {pw : Option String}
    {mat : P12Material}
    (h : load_key_and_certificates data pw = .ok mat) :
    ∃ b, data = some b ∧ b.passphrase = pw ∧ mat = b.material := by
  cases data with
  | none => simp [load_key_and_certificates] at h
  | some b =>
    simp only [load_key_and_certificates] at h
    by_cases hp : b.passphrase = pw
    · refine ⟨b, rfl, hp, ?_⟩
      rw [if_pos hp] at h
      exact (Except.ok.inj h).symm
    · rw [if_neg hp] at h
      cases h

theorem ask_new_pass_readFail (text ts ip : String) (ud : UserData) (fs : FS)
    (h_ip : ud.input_path = some ip) (h_ipne : ip ≠ "")
    (hex : fs.pathExists ip = true) (hread : fs.read ip = none) :
    ask_new_pass text ud fs ts =
      ⟨.END, ud, cleanup [some ip] [ud.tmp_dir] fs, .decryptError⟩ := by
  simp only [ask_new_pass, h_ip, hread]
  rw [if_neg (by simp [h_ipne, hex])]

theorem ask_new_pass_noOldPass (text ts ip : String) (ud : UserData)
    (fs : FS) (data : FileBytes)
    (h_ip : ud.input_path = some ip) (h_ipne : ip ≠ "")
    (h_read : fs.read ip = some data) (h_op : ud.old_pass = none) :
    ask_new_pass text ud fs ts =
      ⟨.END, ud, cleanup [some ip] [ud.tmp_dir] fs, .decryptError⟩ := by
  have hex : fs.pathExists ip = true := pathExists_of_read h_read
  simp only [ask_new_pass, h_ip, h_read, h_op]
  rw [if_neg (by simp [h_ipne, hex])]

theorem ask_new_pass_repackFail (text ts ip op td : String) (ud : UserData)
    (fs : FS) (data : FileBytes) (mat : P12Material)
    (h_ip : ud.input_path = some ip) (h_ipne : ip ≠ "")
    (h_read : fs.read ip = some data) (h_op : ud.old_pass = some op)
    (h_load : load_key_and_certificates data
      (if op = "" then none else some op) = .ok mat)
    (h_mat : ¬(mat.key = none ∧ mat.cert = none))
    (h_onm : ud.orig_name = none) (h_td : ud.tmp_dir = some td) :
    ask_new_pass text ud fs ts =
      ⟨.END, UserData.empty, cleanup [some ip] [some td] fs, .repackError⟩ := by
  have hex : fs.pathExists ip = true := pathExists_of_read h_read
  simp only [ask_new_pass, h_ip, h_read, h_op, h_onm, h_td]
  rw [if_neg (by simp [h_ipne, hex])]
  simp [h_load, h_mat]

theorem dir_removed_single (fs : FS) (td ip : String)
    (hconf : ∀ kv ∈ fs.files, under td kv.1 = true → kv.1 = ip)
    (hdirs : ∀ e ∈ fs.dirs, under td e = false)
    (h_ipne : ip ≠ "") (h_tdne : td ≠ "") :
    td ∉ (cleanup [some ip] [some td] fs).dirs :=
  dir_removed_by_cleanup fs td [some ip]
    (fun kv hm hu =>
      ⟨by rw [hconf kv hm hu]; exact h_ipne,
       by rw [hconf kv hm hu]; exact List.mem_singleton.mpr rfl⟩)
    hdirs h_tdne

/-- Claim C3 counterexample: on the missing-input-file failure of
ask_new_pass the handler terminates the dialogue, yet the session temporary
directory still exists afterwards (lines 125-127 of app.py return with no
cleanup). -/
theorem c3_counterexample :
    (ask_new_pass "newpass" sessUD missFS "20250101_120000").ret = .END ∧
    (ask_new_pass "newpass" sessUD missFS "20250101_120000").reply = .missingTempFile ∧
    "/t" ∈ (ask_new_pass "newpass" sessUD missFS "20250101_120000").fs.dirs := by
  decide

/-- Claim C3 (amended): when the session directory holds nothing besides
the session input file, the directory no longer exists after every terminal
outcome of ask_new_pass that passes the input-existence check (success,
invalid-bundle, decryption-error and repack-error paths) and after
cancellation; on the missing-input-file failure the handler leaves the file
system, including the directory, untouched. -/
theorem c3_tmp_dir_lifecycle (text ts ip td : String) (ud : UserData)
    (fs : FS)
    (h_ip : ud.input_path = some ip) (h_ipne : ip ≠ "")
    (h_td : ud.tmp_dir = some td) (h_tdne : td ≠ "")
    (hconf : ∀ kv ∈ fs.files, under td kv.1 = true → kv.1 = ip)
    (hdirs : ∀ e ∈ fs.dirs, under td e = false) :
    (fs.pathExists ip = true → td ∉ (ask_new_pass text ud fs ts).fs.dirs) ∧
    (td ∉ (cancel ud fs).fs.dirs) ∧
    (fs.pathExists ip = false → (ask_new_pass text ud fs ts).fs = fs) := by
  refine ⟨?_, ?_, ?_⟩
  · intro hex
    cases hread : fs.read ip with
    | none =>
      rw [ask_new_pass_readFail text ts ip ud fs h_ip h_ipne hex hread, h_td]
      exact dir_removed_single fs td ip hconf hdirs h_ipne h_tdne
    | some data =>
      cases hop : ud.old_pass with
      | none =>
        rw [ask_new_pass_noOldPass text ts ip ud fs data h_ip h_ipne hread hop,
          h_td]
        exact dir_removed_single fs td ip hconf hdirs h_ipne h_tdne
      | some op =>
        cases hl : load_key_and_certificates data
            (if op = "" then none else some op) with
        | error e =>
          cases e
          rw [ask_new_pass_loadFail text ts ip op ud fs data h_ip h_ipne hread
            hop hl, h_td]
          exact dir_removed_single fs td ip hconf hdirs h_ipne h_tdne
        | ok mat =>
          by_cases hmat : mat.key = none ∧ mat.cert = none
          · rw [ask_new_pass_invalid text ts ip op ud fs data mat h_ip h_ipne
              hread hop hl hmat.1 hmat.2, h_td]
            exact dir_removed_single fs td ip hconf hdirs h_ipne h_tdne
          · cases honm : ud.orig_name with
            | none =>
              rw [ask_new_pass_repackFail text ts ip op td ud fs data mat h_ip
                h_ipne hread hop hl hmat honm h_td]
              exact dir_removed_single fs td ip hconf hdirs h_ipne h_tdne
            | some onm =>
              obtain ⟨b, hdata, hpw, hmatb⟩ := load_ok_inv hl
              subst hdata
              subst hmatb
              rw [ask_new_pass_success text ts ip op onm td ud fs b h_ip h_ipne
                hread hop hpw hmat honm h_td]
              apply dir_removed_by_cleanup
              · intro kv hm hu
                rcases List.mem_cons.mp hm with h | h
                · have hk : kv.1 =
                      td ++ "/" ++ (splitext_root onm ++ "_newpass_" ++ ts ++ ".p12") := by
                    rw [h]
                  exact ⟨by rw [hk]; exact append_slash_ne_empty td _,
                         by rw [hk]; simp⟩
                · have hm2 := List.mem_of_mem_filter h
                  have hkv := hconf kv hm2 hu
                  exact ⟨by rw [hkv]; exact h_ipne, by rw [hkv]; simp⟩
              · intro e he
                exact hdirs e he
              · exact h_tdne
  · simp only [cancel, h_ip, h_td]
    exact dir_removed_single fs td ip hconf hdirs h_ipne h_tdne
  · intro hex
    rw [ask_new_pass_missing text ts ip ud fs h_ip (Or.inr hex)]

/-- Witness for C3: on the concrete session the directory is removed after
success and after cancellation, and survives untouched on the missing-file
failure. -/
theorem c3_witness :
    sessFS.pathExists "/t/secret.p12" = true ∧
    "/t" ∉ (ask_new_pass "newpass" sessUD sessFS "20250101_120000").fs.dirs ∧
    "/t" ∉ (cancel sessUD sessFS).fs.dirs ∧
    missFS.pathExists "/t/secret.p12" = false ∧
    (ask_new_pass "newpass" sessUD missFS "20250101_120000").fs = missFS := by
  have h1 := c3_tmp_dir_lifecycle "newpass" "20250101_120000" "/t/secret.p12"
    "/t" sessUD sessFS (by decide) (by decide) (by decide) (by decide)
    (by decide) (by decide)
  have h2 := c3_tmp_dir_lifecycle "newpass" "20250101_120000" "/t/secret.p12"
    "/t" sessUD missFS (by decide) (by decide) (by decide) (by decide)
    (by decide) (by decide)
  exact ⟨by decide, h1.1 (by decide), h1.2.1, by decide, h2.2.2 (by decide)⟩

theorem ask_new_pass_ud_reply (text ts : String) (ud : UserData) (fs : FS) :
    ((ask_new_pass text ud fs ts).ud = ud ∧
     ((ask_new_pass text ud fs ts).reply = .missingTempFile ∨
      (ask_new_pass text ud fs ts).reply = .invalidBundle ∨
      (ask_new_pass text ud fs ts).reply = .decryptError)) ∨
    ((ask_new_pass text ud fs ts).ud = UserData.empty ∧
     ((ask_new_pass text ud fs ts).reply = .repackError ∨
      ∃ fn out, (ask_new_pass text ud fs ts).reply = .successDoc fn out)) := by
  simp only [ask_new_pass]
  repeat' split
  all_goals simp

/-- Claim C4 counterexample: on the invalid-bundle path the scratch state
is not cleared: the handler terminates but user_data keeps every field. -/
theorem c4_counterexample :
    (ask_new_pass "newpass" emptyUD emptyFS "20250101_120000").reply = .invalidBundle ∧
    (ask_new_pass "newpass" emptyUD emptyFS "20250101_120000").ret = .END ∧
    (ask_new_pass "newpass" emptyUD emptyFS "20250101_120000").ud = emptyUD ∧
    emptyUD ≠ UserData.empty := by
  decide

/-- Claim C4 (amended): the scratch state is cleared on the success and
repack-error paths of ask_new_pass and on cancellation, but it is left
unchanged (not cleared) on the missing-input-file, invalid-bundle and
decryption-error paths. -/
theorem c4_scratch_state (text ts : String) (ud : UserData) (fs : FS) :
    ((ask_new_pass text ud fs ts).reply = .missingTempFile ∨
     (ask_new_pass text ud fs ts).reply = .invalidBundle ∨
     (ask_new_pass text ud fs ts).reply = .decryptError →
      (ask_new_pass text ud fs ts).ud = ud) ∧
    ((ask_new_pass text ud fs ts).reply = .repackError ∨
     (∃ fn out, (ask_new_pass text ud fs ts).reply = .successDoc fn out) →
      (ask_new_pass text ud fs ts).ud = UserData.empty) ∧
    (cancel ud fs).ud = UserData.empty := by
  rcases ask_new_pass_ud_reply text ts ud fs with ⟨hud, hr⟩ | ⟨hud, hr⟩
  · refine ⟨fun _ => hud, fun h => ?_, rfl⟩
    rcases hr with hr | hr | hr <;>
      rcases h with h | ⟨fn, out, h⟩ <;> rw [hr] at h <;> cases h
  · refine ⟨fun h => ?_, fun _ => hud, rfl⟩
    rcases hr with hr | ⟨fn, out, hr⟩ <;>
      rcases h with h | h | h <;> rw [hr] at h <;> cases h

/-- Witness for C4: the missing-file failure keeps the scratch state, while
a successful repack clears it. -/
theorem c4_witness :
    (ask_new_pass "newpass" sessUD missFS "20250101_120000").ud = sessUD ∧
    (ask_new_pass "newpass" sessUD sessFS "20250101_120000").ud = UserData.empty :=
  ⟨(c4_scratch_state "newpass" "20250101_120000" sessUD missFS).1
     (Or.inl (by decide)),
   (c4_scratch_state "newpass" "20250101_120000" sessUD sessFS).2.1
     (Or.inr ⟨"secret_newpass_20250101_120000.p12",
       ⟨bundleA.material, some "newpass", some "CN=Alice"⟩, by decide⟩)⟩

end P12
